import Mathlib

/-! ## bufconfig provider: configuration resolution

A shallow embedding of `internal/buf/bufconfig/provider.go`.

The provider is an orchestrator: everything it does is a call to a collaborator
(the storage bucket, the stream it returns, the strict decoders, the registered
override hook, the two rule builders) followed by a branch on the returned
`error`.  The embedding therefore

* represents a Go `error` result as `Option GoError` (`none` is `nil`) and a
  Go `*Config` result as `Option (Config ..)` (`none` is `nil`);
* takes every collaborator as a function returning the Go result tuple as it
  is, value and error side by side, so that no behaviour of a collaborator is
  excluded by the types;
* makes each provider method return, next to its Go results, the list of
  collaborator calls it performed, in program order (`Event`).  Statements such
  as "the builder is not invoked" or "Close is invoked exactly once" are
  statements about that list.

Each collaborator is called at most once during one resolution, so taking it as
a function of its arguments loses no single-call behaviour: whatever a stateful
collaborator answers on its one call is the answer of some function.
-/

namespace Bufconfig

/-! ## Errors -/

/-- An `error` value that is not a `*multierr.multiError`; it is identified by
its message. -/
structure LeafError where
  msg : String
  deriving DecidableEq, Repr

/-- A non-nil Go `error`: either an ordinary error or a multierr container,
which holds a flat list of ordinary errors. -/
inductive GoError where
  | single (e : LeafError)
  | multi (errs : List LeafError)
  deriving DecidableEq, Repr

namespace GoError

/-- Modelled from the spec: `multierr.Errors` belongs to the library
go.uber.org/multierr, which is not under src/.  It lists the errors an error
value stands for: the elements of a container, or the error itself. -/
def Errors : GoError → List LeafError
  | single e => [e]
  | multi errs => errs

end GoError

/-- Modelled from the spec: `multierr.Append` belongs to the library
go.uber.org/multierr, which is not under src/.  The spec asks that a release
error be "combined with (not replacing) a prior error" and "returned alone if
the main path succeeded": a nil side yields the other side unchanged, and two
non-nil errors yield a container listing the errors of the left one followed by
the errors of the right one. -/
def Append : Option GoError → Option GoError → Option GoError
  | none, right => right
  | left, none => left
  | some l, some r => some (GoError.multi (l.Errors ++ r.Errors))

/-! ## Data model -/

/-- A `[]byte`. -/
abbrev Bytes := List Nat

/-- A `context.Context`, as an uninterpreted token that is only forwarded. -/
abbrev Context := Nat

/-- Modelled from the spec: the declaration of the `Breaking` section of
`ExternalConfig` is not under src/; its fields are the ones `newConfig` reads
(a rule selection: enabled rule names, excluded rule names, ignored paths,
ignored-id-to-paths mapping). -/
structure ExternalBreakingConfig where
  Use : List String
  Except : List String
  Ignore : List String
  IgnoreOnly : List (String × List String)
  deriving DecidableEq, Repr

/-- Modelled from the spec: the declaration of the `Lint` section of
`ExternalConfig` is not under src/; its fields are the ones `newConfig` reads
(the rule selection plus the stylistic options). -/
structure ExternalLintConfig where
  Use : List String
  Except : List String
  Ignore : List String
  IgnoreOnly : List (String × List String)
  EnumZeroValueSuffix : String
  RPCAllowSameRequestResponse : Bool
  RPCAllowGoogleProtobufEmptyRequests : Bool
  RPCAllowGoogleProtobufEmptyResponses : Bool
  ServiceSuffix : String
  deriving DecidableEq, Repr

/-- Modelled from the spec: the declaration of `ExternalConfig` is not under
src/.  The type `B` of the build section is left open, the provider only copies
it. -/
structure ExternalConfig (B : Type) where
  Build : B
  Breaking : ExternalBreakingConfig
  Lint : ExternalLintConfig
  deriving DecidableEq, Repr

/-- The value of `&ExternalConfig{}`: every field at its Go zero value (a nil
slice or map is the empty list), given the zero value of the build section. -/
def ExternalConfig.zero {B : Type} (zeroBuild : B) : ExternalConfig B :=
  { Build := zeroBuild
    Breaking := { Use := [], Except := [], Ignore := [], IgnoreOnly := [] }
    Lint :=
      { Use := [], Except := [], Ignore := [], IgnoreOnly := []
        EnumZeroValueSuffix := "", RPCAllowSameRequestResponse := false
        RPCAllowGoogleProtobufEmptyRequests := false
        RPCAllowGoogleProtobufEmptyResponses := false
        ServiceSuffix := "" } }

/-- The composite literal `bufbreaking.ConfigBuilder{...}` that `newConfig`
fills in; the field names are the ones written in provider.go. -/
structure BreakingConfigBuilder where
  Use : List String
  Except : List String
  IgnoreRootPaths : List String
  IgnoreIDOrCategoryToRootPaths : List (String × List String)
  deriving DecidableEq, Repr

/-- The composite literal `buflint.ConfigBuilder{...}` that `newConfig` fills
in; the field names are the ones written in provider.go. -/
structure LintConfigBuilder where
  Use : List String
  Except : List String
  IgnoreRootPaths : List String
  IgnoreIDOrCategoryToRootPaths : List (String × List String)
  EnumZeroValueSuffix : String
  RPCAllowSameRequestResponse : Bool
  RPCAllowGoogleProtobufEmptyRequests : Bool
  RPCAllowGoogleProtobufEmptyResponses : Bool
  ServiceSuffix : String
  deriving DecidableEq, Repr

/-- The struct `Config` assembled at the end of `newConfig`.  `K` and `L` are
the types of the values the breaking and lint builders return. -/
structure Config (B K L : Type) where
  Build : B
  Breaking : K
  Lint : L
  deriving DecidableEq, Repr

/-! ## Collaborators -/

/-- The `io.ReadCloser` returned by `readBucket.Get`: what `ioutil.ReadAll`
returns on it and what its `Close` returns. -/
structure ReadObject where
  ReadAll : Bytes × Option GoError
  Close : Option GoError
  deriving DecidableEq, Repr

/-- A `storage.ReadBucket`, through its only method used here,
`Get(ctx, path)`. -/
abbrev ReadBucket := Context → String → ReadObject × Option GoError

/-- The package-level names provider.go uses and does not define. -/
structure Collaborators (B K L : Type) where
  /-- The constant `ConfigFilePath`. -/
  ConfigFilePath : String
  /-- The zero value of the build section, for `&ExternalConfig{}`. -/
  zeroBuild : B
  /-- The predicate `storage.IsNotExist`. -/
  IsNotExist : GoError → Bool
  /-- The decoder `utilencoding.UnmarshalYAMLStrict(data, target)`: the target
  after the call and the returned error. -/
  UnmarshalYAMLStrict : Bytes → ExternalConfig B → ExternalConfig B × Option GoError
  /-- The decoder `utilencoding.UnmarshalJSONOrYAMLStrict(data, target)`. -/
  UnmarshalJSONOrYAMLStrict : Bytes → ExternalConfig B → ExternalConfig B × Option GoError
  /-- The method `bufbreaking.ConfigBuilder.NewConfig`. -/
  breakingNewConfig : BreakingConfigBuilder → K × Option GoError
  /-- The method `buflint.ConfigBuilder.NewConfig`. -/
  lintNewConfig : LintConfigBuilder → L × Option GoError

/-- The struct `provider`.  The hook receives a pointer and returns an error:
here it returns the pointed-to value after the call and the error; `none` is a
nil function value.  The logger shows only as the `Event.logStart` and
`Event.logEnd` entries of a call. -/
structure provider (B : Type) where
  externalConfigModifier : Option (ExternalConfig B → ExternalConfig B × Option GoError)

/-- One call made by the provider, with the arguments it passed. -/
inductive Event (B : Type) where
  /-- `utillog.Defer(p.logger, name)` is evaluated. -/
  | logStart (name : String)
  /-- The function returned by `utillog.Defer` runs, deferred. -/
  | logEnd (name : String)
  | get (ctx : Context) (path : String)
  | readAll
  | close
  | unmarshalYAMLStrict (data : Bytes)
  | unmarshalJSONOrYAMLStrict (data : Bytes)
  | modifier (externalConfig : ExternalConfig B)
  | breakingNewConfig (builder : BreakingConfigBuilder)
  | lintNewConfig (builder : LintConfigBuilder)
  deriving DecidableEq, Repr

namespace Event

variable {B : Type}

/-- The event is a call of the stream's `Close`. -/
def isClose : Event B → Bool
  | close => true
  | _ => false

/-- The event is a read of the stream. -/
def isReadAll : Event B → Bool
  | readAll => true
  | _ => false

/-- The event is a call of one of the two strict decoders. -/
def isDecode : Event B → Bool
  | unmarshalYAMLStrict _ => true
  | unmarshalJSONOrYAMLStrict _ => true
  | _ => false

/-- The event is a call of the override hook. -/
def isModifier : Event B → Bool
  | modifier _ => true
  | _ => false

/-- The event is a call of the breaking builder. -/
def isBreakingBuilder : Event B → Bool
  | breakingNewConfig _ => true
  | _ => false

/-- The event is a call of the lint builder. -/
def isLintBuilder : Event B → Bool
  | lintNewConfig _ => true
  | _ => false

/-- The event is a call of either builder. -/
def isBuilder (e : Event B) : Bool :=
  e.isBreakingBuilder || e.isLintBuilder

end Event

/-- What a provider method hands back: the `*Config`, the `error`, and the
calls performed. -/
structure Outcome (B K L : Type) where
  config : Option (Config B K L)
  err : Option GoError
  trace : List (Event B)
  deriving DecidableEq, Repr

/-! ## The provider -/

section Provider

variable {B K L : Type}

/-- The literal `bufbreaking.ConfigBuilder{...}` of provider.go lines 71-76. -/
def breakingBuilderOf (externalConfig : ExternalConfig B) : BreakingConfigBuilder :=
  { Use := externalConfig.Breaking.Use
    Except := externalConfig.Breaking.Except
    IgnoreRootPaths := externalConfig.Breaking.Ignore
    IgnoreIDOrCategoryToRootPaths := externalConfig.Breaking.IgnoreOnly }

/-- The literal `buflint.ConfigBuilder{...}` of provider.go lines 80-90. -/
def lintBuilderOf (externalConfig : ExternalConfig B) : LintConfigBuilder :=
  { Use := externalConfig.Lint.Use
    Except := externalConfig.Lint.Except
    IgnoreRootPaths := externalConfig.Lint.Ignore
    IgnoreIDOrCategoryToRootPaths := externalConfig.Lint.IgnoreOnly
    EnumZeroValueSuffix := externalConfig.Lint.EnumZeroValueSuffix
    RPCAllowSameRequestResponse := externalConfig.Lint.RPCAllowSameRequestResponse
    RPCAllowGoogleProtobufEmptyRequests := externalConfig.Lint.RPCAllowGoogleProtobufEmptyRequests
    RPCAllowGoogleProtobufEmptyResponses := externalConfig.Lint.RPCAllowGoogleProtobufEmptyResponses
    ServiceSuffix := externalConfig.Lint.ServiceSuffix }

/-- Lines 71-98 of `provider.newConfig`: the part after the hook, on the
configuration the hook left behind. -/
def newConfig.build (c : Collaborators B K L) (externalConfig : ExternalConfig B) :
    Outcome B K L :=
  let breakingBuilder := breakingBuilderOf externalConfig
  match c.breakingNewConfig breakingBuilder with
  | (_, some err) =>
    { config := none, err := some err, trace := [Event.breakingNewConfig breakingBuilder] }
  | (breakingConfig, none) =>
    let lintBuilder := lintBuilderOf externalConfig
    match c.lintNewConfig lintBuilder with
    | (_, some err) =>
      { config := none, err := some err
        trace := [Event.breakingNewConfig breakingBuilder, Event.lintNewConfig lintBuilder] }
    | (lintConfig, none) =>
      { config := some
          { Build := externalConfig.Build, Breaking := breakingConfig, Lint := lintConfig }
        err := none
        trace := [Event.breakingNewConfig breakingBuilder, Event.lintNewConfig lintBuilder] }

/-- The method `provider.newConfig` (lines 65-99). -/
def newConfig (c : Collaborators B K L) (p : provider B) (externalConfig : ExternalConfig B) :
    Outcome B K L :=
  match p.externalConfigModifier with
  | some modifier =>
    match modifier externalConfig with
    | (_, some err) =>
      { config := none, err := some err, trace := [Event.modifier externalConfig] }
    | (modified, none) =>
      let r := newConfig.build c modified
      { r with trace := Event.modifier externalConfig :: r.trace }
  | none => newConfig.build c externalConfig

/-- Lines 45-52 of `provider.GetConfigForReadBucket`: the statements that run
between the registration of the deferred `Close` and the deferred calls. -/
def GetConfigForReadBucket.body (c : Collaborators B K L) (p : provider B)
    (readObject : ReadObject) (externalConfig : ExternalConfig B) : Outcome B K L :=
  match readObject.ReadAll with
  | (_, some err) => { config := none, err := some err, trace := [Event.readAll] }
  | (data, none) =>
    match c.UnmarshalYAMLStrict data externalConfig with
    | (_, some err) =>
      { config := none, err := some err
        trace := [Event.readAll, Event.unmarshalYAMLStrict data] }
    | (decoded, none) =>
      let r := newConfig c p decoded
      { r with trace := Event.readAll :: Event.unmarshalYAMLStrict data :: r.trace }

/-- The method `provider.GetConfigForReadBucket` (lines 31-53).  The first
result is unnamed (`_ *Config`), so the deferred function can only rewrite
`retErr`: the `*Config` of the `return` statement is handed back as it is. -/
def GetConfigForReadBucket (c : Collaborators B K L) (p : provider B) (ctx : Context)
    (readBucket : ReadBucket) : Outcome B K L :=
  let externalConfig := ExternalConfig.zero c.zeroBuild
  match readBucket ctx c.ConfigFilePath with
  | (_, some err) =>
    if c.IsNotExist err then
      let r := newConfig c p externalConfig
      { r with
        trace := Event.logStart "get_config_for_bucket" :: Event.get ctx c.ConfigFilePath ::
          (r.trace ++ [Event.logEnd "get_config_for_bucket"]) }
    else
      { config := none, err := some err
        trace := [Event.logStart "get_config_for_bucket", Event.get ctx c.ConfigFilePath,
          Event.logEnd "get_config_for_bucket"] }
  | (readObject, none) =>
    let r := GetConfigForReadBucket.body c p readObject externalConfig
    { config := r.config
      err := Append r.err readObject.Close
      trace := Event.logStart "get_config_for_bucket" :: Event.get ctx c.ConfigFilePath ::
        (r.trace ++ [Event.close, Event.logEnd "get_config_for_bucket"]) }

/-- The method `provider.GetConfigForData` (lines 55-63). -/
def GetConfigForData (c : Collaborators B K L) (p : provider B) (data : Bytes) :
    Outcome B K L :=
  let externalConfig := ExternalConfig.zero c.zeroBuild
  match c.UnmarshalJSONOrYAMLStrict data externalConfig with
  | (_, some err) =>
    { config := none, err := some err
      trace := [Event.logStart "get_config_for_data", Event.unmarshalJSONOrYAMLStrict data,
        Event.logEnd "get_config_for_data"] }
  | (decoded, none) =>
    let r := newConfig c p decoded
    { r with
      trace := Event.logStart "get_config_for_data" :: Event.unmarshalJSONOrYAMLStrict data ::
        (r.trace ++ [Event.logEnd "get_config_for_data"]) }

end Provider


/-! ## Statement vocabulary -/

section Vocabulary

variable {B : Type}

/-- The effect of "the hook, if any" on a configuration: the configuration it
leaves behind and the error it returns; a provider without a hook leaves the
configuration as it is and returns no error. -/
def provider.runModifier (p : provider B) (externalConfig : ExternalConfig B) :
    ExternalConfig B × Option GoError :=
  match p.externalConfigModifier with
  | some modifier => modifier externalConfig
  | none => (externalConfig, none)

/-- No event of the trace is a call of the hook or of a builder. -/
def noHookNoBuilder (trace : List (Event B)) : Prop :=
  ∀ ev ∈ trace, ev.isModifier = false ∧ ev.isBuilder = false

/-- No event of the trace reads or closes a stream or calls a decoder. -/
def noStreamNoDecode (trace : List (Event B)) : Prop :=
  ∀ ev ∈ trace, ev.isReadAll = false ∧ ev.isClose = false ∧ ev.isDecode = false

end Vocabulary

/-! ## Fixtures for concrete evaluation -/

namespace Sample

/-- The error a fixture collaborator fails with. -/
def boom (msg : String) : GoError := GoError.single { msg := msg }

/-- Fixture decoder: the bytes `[1]` name rule "X" for both sections, anything
else is rejected. -/
def decode (data : Bytes) (target : ExternalConfig Nat) : ExternalConfig Nat × Option GoError :=
  if data = [1] then
    ({ Build := 7
       Breaking := { target.Breaking with Use := ["X"] }
       Lint := { target.Lint with Use := ["Y"], ServiceSuffix := "Svc" } }, none)
  else (target, some (boom "unknown field"))

/-- Fixture collaborators: the builders hand back the literal they were given,
and fail on a selection that enables the rule "BAD". -/
def collaborators : Collaborators Nat BreakingConfigBuilder LintConfigBuilder :=
  { ConfigFilePath := "buf.yaml"
    zeroBuild := 0
    IsNotExist := fun e => decide (e = boom "not exist")
    UnmarshalYAMLStrict := decode
    UnmarshalJSONOrYAMLStrict := decode
    breakingNewConfig := fun b =>
      if b.Use = ["BAD"] then (b, some (boom "bad breaking rule")) else (b, none)
    lintNewConfig := fun b =>
      if b.Use = ["BAD"] then (b, some (boom "bad lint rule")) else (b, none) }

/-- A provider built without options. -/
def plain : provider Nat := { externalConfigModifier := none }

/-- A provider whose hook always fails. -/
def failingHook : provider Nat :=
  { externalConfigModifier := some fun cfg => (cfg, some (boom "hook")) }

/-- A provider whose hook rewrites all three sections. -/
def rewritingHook : provider Nat :=
  { externalConfigModifier := some fun cfg =>
      ({ Build := 9
         Breaking := { cfg.Breaking with Use := ["B1"], Except := ["B2"] }
         Lint := { cfg.Lint with Use := ["L1"], EnumZeroValueSuffix := "_UNSPECIFIED" } },
        none) }

/-- A stream serving the bytes `data` whose `Close` returns `closeErr`. -/
def stream (data : Bytes) (closeErr : Option GoError) : ReadObject :=
  { ReadAll := (data, none), Close := closeErr }

/-- A bucket holding the given stream at every path. -/
def bucketWith (readObject : ReadObject) : ReadBucket :=
  fun _ _ => (readObject, none)

/-- A bucket whose `Get` fails with the given error. -/
def bucketFailing (err : GoError) : ReadBucket :=
  fun _ _ => (stream [] none, some err)

end Sample

/-! ## Structure of the traces -/

section TraceLemmas

variable {B K L : Type}

theorem newConfig_build_trace (c : Collaborators B K L) (x : ExternalConfig B) :
    (newConfig.build c x).trace =
      Event.breakingNewConfig (breakingBuilderOf x) ::
        (if (c.breakingNewConfig (breakingBuilderOf x)).2 = none
          then [Event.lintNewConfig (lintBuilderOf x)] else []) := by
  unfold newConfig.build
  rcases hb : c.breakingNewConfig (breakingBuilderOf x) with ⟨bk, _ | e⟩
  · rcases hl : c.lintNewConfig (lintBuilderOf x) with ⟨lt, _ | e⟩ <;> simp [hb, hl]
  · simp [hb]

theorem newConfig_build_noStream (c : Collaborators B K L) (x : ExternalConfig B) :
    noStreamNoDecode (newConfig.build c x).trace := by
  intro ev hev
  rw [newConfig_build_trace] at hev
  split at hev
  · simp only [List.mem_cons, List.mem_singleton, List.not_mem_nil, or_false] at hev
    rcases hev with h | h <;> subst h <;> simp [Event.isReadAll, Event.isClose, Event.isDecode]
  · simp only [List.mem_singleton] at hev
    subst hev
    simp [Event.isReadAll, Event.isClose, Event.isDecode]

theorem newConfig_noStream (c : Collaborators B K L) (p : provider B) (x : ExternalConfig B) :
    noStreamNoDecode (newConfig c p x).trace := by
  unfold newConfig
  rcases hp : p.externalConfigModifier with _ | modifier
  · simpa using newConfig_build_noStream c x
  · rcases hm : modifier x with ⟨post, _ | e⟩
    · intro ev hev
      simp only [hm, List.mem_cons] at hev
      rcases hev with h | h
      · subst h
        simp [Event.isReadAll, Event.isClose, Event.isDecode]
      · exact newConfig_build_noStream c post ev h
    · intro ev hev
      simp only [hm, List.mem_singleton] at hev
      subst hev
      simp [Event.isReadAll, Event.isClose, Event.isDecode]

theorem newConfig_countP_isClose (c : Collaborators B K L) (p : provider B)
    (x : ExternalConfig B) : (newConfig c p x).trace.countP Event.isClose = 0 := by
  rw [List.countP_eq_zero]
  intro ev hev
  simp [(newConfig_noStream c p x ev hev).2.1]

end TraceLemmas

/-! ## newConfig -/

section NewConfig

variable {B K L : Type}

/-- C5: when the registered hook returns an error `e`, `newConfig` returns
`(nil, e)` with `e` unchanged, the hook is the only call made, and neither
builder is invoked. -/
theorem newConfig_hook_error (c : Collaborators B K L) (p : provider B)
    (externalConfig modified : ExternalConfig B)
    (modifier : ExternalConfig B → ExternalConfig B × Option GoError) (e : GoError)
    (hp : p.externalConfigModifier = some modifier)
    (hm : modifier externalConfig = (modified, some e)) :
    (newConfig c p externalConfig).config = none ∧
    (newConfig c p externalConfig).err = some e ∧
    (newConfig c p externalConfig).trace = [Event.modifier externalConfig] ∧
    (∀ ev ∈ (newConfig c p externalConfig).trace, ev.isBuilder = false) := by
  simp [newConfig, hp, hm, Event.isBuilder, Event.isBreakingBuilder, Event.isLintBuilder]

/-- C6: when the registered hook succeeds and leaves `post` behind, the trace
of `newConfig` is: the hook, once and first, on the configuration passed in;
then the breaking builder on Use, Except, Ignore, IgnoreOnly of `post.Breaking`;
then, when the breaking builder succeeded, the lint builder on the nine fields
of `post.Lint`. -/
theorem newConfig_builders_see_hook_result (c : Collaborators B K L) (p : provider B)
    (externalConfig post : ExternalConfig B)
    (modifier : ExternalConfig B → ExternalConfig B × Option GoError)
    (hp : p.externalConfigModifier = some modifier)
    (hm : modifier externalConfig = (post, none)) :
    (newConfig c p externalConfig).trace =
      Event.modifier externalConfig ::
      Event.breakingNewConfig
        { Use := post.Breaking.Use
          Except := post.Breaking.Except
          IgnoreRootPaths := post.Breaking.Ignore
          IgnoreIDOrCategoryToRootPaths := post.Breaking.IgnoreOnly } ::
      (if (c.breakingNewConfig
            { Use := post.Breaking.Use
              Except := post.Breaking.Except
              IgnoreRootPaths := post.Breaking.Ignore
              IgnoreIDOrCategoryToRootPaths := post.Breaking.IgnoreOnly }).2 = none
        then
          [Event.lintNewConfig
            { Use := post.Lint.Use
              Except := post.Lint.Except
              IgnoreRootPaths := post.Lint.Ignore
              IgnoreIDOrCategoryToRootPaths := post.Lint.IgnoreOnly
              EnumZeroValueSuffix := post.Lint.EnumZeroValueSuffix
              RPCAllowSameRequestResponse := post.Lint.RPCAllowSameRequestResponse
              RPCAllowGoogleProtobufEmptyRequests :=
                post.Lint.RPCAllowGoogleProtobufEmptyRequests
              RPCAllowGoogleProtobufEmptyResponses :=
                post.Lint.RPCAllowGoogleProtobufEmptyResponses
              ServiceSuffix := post.Lint.ServiceSuffix }]
        else []) ∧
    (newConfig c p externalConfig).trace.countP Event.isModifier = 1 := by
  have ht := newConfig_build_trace c post
  have h : (newConfig c p externalConfig).trace =
      Event.modifier externalConfig :: (newConfig.build c post).trace := by
    simp [newConfig, hp, hm]
  refine ⟨?_, ?_⟩
  · rw [h, ht]
    rfl
  · rw [h, ht]
    split <;> simp [List.countP_cons, Event.isModifier]

/-- C10: with `post` and `hookErr` the configuration and error left by the
hook, if any, `newConfig` returns a nil error exactly when the hook and both
builders (on `post`) return a nil error, and then its Config has the Build
section of the raw configuration as it stands, the breaking builder's value and
the lint builder's value.  A breaking-builder error is returned unchanged with
a nil Config and without a call of the lint builder; a lint-builder error is
returned unchanged with a nil Config, the breaking builder's value being
dropped. -/
theorem newConfig_result (c : Collaborators B K L) (p : provider B)
    (externalConfig : ExternalConfig B) :
    let post := (p.runModifier externalConfig).1
    let hookErr := (p.runModifier externalConfig).2
    let breaking := c.breakingNewConfig
      { Use := post.Breaking.Use
        Except := post.Breaking.Except
        IgnoreRootPaths := post.Breaking.Ignore
        IgnoreIDOrCategoryToRootPaths := post.Breaking.IgnoreOnly }
    let lint := c.lintNewConfig
      { Use := post.Lint.Use
        Except := post.Lint.Except
        IgnoreRootPaths := post.Lint.Ignore
        IgnoreIDOrCategoryToRootPaths := post.Lint.IgnoreOnly
        EnumZeroValueSuffix := post.Lint.EnumZeroValueSuffix
        RPCAllowSameRequestResponse := post.Lint.RPCAllowSameRequestResponse
        RPCAllowGoogleProtobufEmptyRequests := post.Lint.RPCAllowGoogleProtobufEmptyRequests
        RPCAllowGoogleProtobufEmptyResponses := post.Lint.RPCAllowGoogleProtobufEmptyResponses
        ServiceSuffix := post.Lint.ServiceSuffix }
    let r := newConfig c p externalConfig
    (r.err = none ↔ hookErr = none ∧ breaking.2 = none ∧ lint.2 = none) ∧
    (r.err = none →
      r.config = some { Build := post.Build, Breaking := breaking.1, Lint := lint.1 }) ∧
    (∀ e, hookErr = none → breaking.2 = some e →
      r.config = none ∧ r.err = some e ∧ ∀ ev ∈ r.trace, ev.isLintBuilder = false) ∧
    (∀ e, hookErr = none → breaking.2 = none → lint.2 = some e →
      r.config = none ∧ r.err = some e) := by
  have hbuild : ∀ post : ExternalConfig B,
      let breaking := c.breakingNewConfig (breakingBuilderOf post)
      let lint := c.lintNewConfig (lintBuilderOf post)
      let r := newConfig.build c post
      (r.err = none ↔ breaking.2 = none ∧ lint.2 = none) ∧
      (r.err = none →
        r.config = some { Build := post.Build, Breaking := breaking.1, Lint := lint.1 }) ∧
      (∀ e, breaking.2 = some e → r.config = none ∧ r.err = some e ∧ r.trace =
        [Event.breakingNewConfig (breakingBuilderOf post)]) ∧
      (∀ e, breaking.2 = none → lint.2 = some e → r.config = none ∧ r.err = some e) := by
    intro post
    unfold newConfig.build
    rcases hb : c.breakingNewConfig (breakingBuilderOf post) with ⟨bk, _ | e⟩
    · rcases hl : c.lintNewConfig (lintBuilderOf post) with ⟨lt, _ | e⟩ <;> simp [hb, hl]
    · simp [hb]
  rcases hp : p.externalConfigModifier with _ | modifier
  · have hrun : p.runModifier externalConfig = (externalConfig, none) := by
      simp [provider.runModifier, hp]
    have hnc : newConfig c p externalConfig = newConfig.build c externalConfig := by
      simp [newConfig, hp]
    obtain ⟨h1, h2, h3, h4⟩ := hbuild externalConfig
    simp only [hrun, hnc]
    refine ⟨by simpa using h1, h2, ?_, fun e _ hb hl => h4 e hb hl⟩
    intro e _ hb
    obtain ⟨h5, h6, h7⟩ := h3 e hb
    refine ⟨h5, h6, ?_⟩
    intro ev hev
    rw [h7] at hev
    simp only [List.mem_singleton] at hev
    subst hev
    rfl
  · rcases hm : modifier externalConfig with ⟨post, _ | he⟩
    · have hrun : p.runModifier externalConfig = (post, none) := by
        simp [provider.runModifier, hp, hm]
      have hnc : newConfig c p externalConfig =
          { newConfig.build c post with
            trace := Event.modifier externalConfig :: (newConfig.build c post).trace } := by
        simp [newConfig, hp, hm]
      obtain ⟨h1, h2, h3, h4⟩ := hbuild post
      simp only [hrun, hnc]
      refine ⟨by simpa using h1, h2, ?_, fun e _ hb hl => h4 e hb hl⟩
      intro e _ hb
      obtain ⟨h5, h6, h7⟩ := h3 e hb
      refine ⟨h5, h6, ?_⟩
      intro ev hev
      simp only [List.mem_cons] at hev
      rcases hev with h | h
      · subst h
        rfl
      · rw [h7] at h
        simp only [List.mem_singleton] at h
        subst h
        rfl
    · have hrun : p.runModifier externalConfig = (post, some he) := by
        simp [provider.runModifier, hp, hm]
      have hnc : newConfig c p externalConfig =
          { config := none, err := some he, trace := [Event.modifier externalConfig] } := by
        simp [newConfig, hp, hm]
      simp [hrun, hnc]

end NewConfig

/-! ## GetConfigForReadBucket and GetConfigForData -/

section EntryPoints

variable {B K L : Type}

theorem body_countP_isClose (c : Collaborators B K L) (p : provider B) (ro : ReadObject)
    (x : ExternalConfig B) :
    (GetConfigForReadBucket.body c p ro x).trace.countP Event.isClose = 0 := by
  unfold GetConfigForReadBucket.body
  rcases ro.ReadAll with ⟨data, _ | e⟩
  · rcases hd : c.UnmarshalYAMLStrict data x with ⟨decoded, _ | e⟩
    · simp only [hd, List.countP_cons, Event.isClose, newConfig_countP_isClose]
      rfl
    · simp only [hd, List.countP_cons, Event.isClose]
      rfl
  · simp only [List.countP_cons, Event.isClose]
    rfl

/-- C2: when `Get` at `ConfigFilePath` fails with an error for which
`storage.IsNotExist` holds, `GetConfigForReadBucket` returns the Config and the
error of `newConfig` on the zero `ExternalConfig`; between the `Get` and the end
it performs the calls of that `newConfig` and nothing else, so no stream is
read or closed and no decoder is called. -/
theorem GetConfigForReadBucket_not_found (c : Collaborators B K L) (p : provider B)
    (ctx : Context) (readBucket : ReadBucket) (readObject : ReadObject) (e : GoError)
    (hget : readBucket ctx c.ConfigFilePath = (readObject, some e))
    (hne : c.IsNotExist e = true) :
    (GetConfigForReadBucket c p ctx readBucket).config =
      (newConfig c p (ExternalConfig.zero c.zeroBuild)).config ∧
    (GetConfigForReadBucket c p ctx readBucket).err =
      (newConfig c p (ExternalConfig.zero c.zeroBuild)).err ∧
    (GetConfigForReadBucket c p ctx readBucket).trace =
      Event.logStart "get_config_for_bucket" :: Event.get ctx c.ConfigFilePath ::
        ((newConfig c p (ExternalConfig.zero c.zeroBuild)).trace ++
          [Event.logEnd "get_config_for_bucket"]) ∧
    noStreamNoDecode (GetConfigForReadBucket c p ctx readBucket).trace := by
  have h : GetConfigForReadBucket c p ctx readBucket =
      { newConfig c p (ExternalConfig.zero c.zeroBuild) with
        trace := Event.logStart "get_config_for_bucket" :: Event.get ctx c.ConfigFilePath ::
          ((newConfig c p (ExternalConfig.zero c.zeroBuild)).trace ++
            [Event.logEnd "get_config_for_bucket"]) } := by
    simp [GetConfigForReadBucket, hget, hne]
  refine ⟨by rw [h], by rw [h], by rw [h], ?_⟩
  rw [h]
  intro ev hev
  simp only [List.mem_cons, List.mem_append, List.mem_singleton, List.not_mem_nil,
    or_false] at hev
  rcases hev with h1 | h1 | h1 | h1
  · subst h1; simp [Event.isReadAll, Event.isClose, Event.isDecode]
  · subst h1; simp [Event.isReadAll, Event.isClose, Event.isDecode]
  · exact newConfig_noStream c p _ ev h1
  · subst h1; simp [Event.isReadAll, Event.isClose, Event.isDecode]

/-- C3: after a successful `Get`, the error `GetConfigForReadBucket` returns
is `multierr.Append` of the main-path error and the error of `Close`: a `Close`
error `cl` alone is returned as `cl`; a main-path error `e` and a `Close` error
`cl` give an error listing the errors of `e` followed by those of `cl`; a
successful `Close` leaves the main-path error as it is. -/
theorem GetConfigForReadBucket_close_error (c : Collaborators B K L) (p : provider B)
    (ctx : Context) (readBucket : ReadBucket) (readObject : ReadObject)
    (hget : readBucket ctx c.ConfigFilePath = (readObject, none)) :
    let main := GetConfigForReadBucket.body c p readObject (ExternalConfig.zero c.zeroBuild)
    let r := GetConfigForReadBucket c p ctx readBucket
    r.err = Append main.err readObject.Close ∧
    (∀ cl, main.err = none → readObject.Close = some cl → r.err = some cl) ∧
    (∀ e cl, main.err = some e → readObject.Close = some cl →
      ∃ x, r.err = some x ∧ x.Errors = e.Errors ++ cl.Errors) ∧
    (readObject.Close = none → r.err = main.err) := by
  intro main r
  have h : r.err = Append main.err readObject.Close := by
    simp [r, main, GetConfigForReadBucket, hget]
  refine ⟨h, ?_, ?_, ?_⟩
  · intro cl hm hc
    rw [h, hm, hc]
    rfl
  · intro e cl hm hc
    rw [h, hm, hc]
    exact ⟨_, rfl, rfl⟩
  · intro hc
    rw [h, hc]
    cases main.err <;> rfl

/-- C4: a call of `GetConfigForReadBucket` whose `Get` succeeds calls `Close`
exactly once, after every other call of the main path and before the call
ends; a call whose `Get` fails never calls `Close`. -/
theorem GetConfigForReadBucket_close_count (c : Collaborators B K L) (p : provider B)
    (ctx : Context) (readBucket : ReadBucket) :
    ((readBucket ctx c.ConfigFilePath).2 = none →
      (GetConfigForReadBucket c p ctx readBucket).trace.countP Event.isClose = 1 ∧
      ∃ before, (GetConfigForReadBucket c p ctx readBucket).trace =
        before ++ [Event.close, Event.logEnd "get_config_for_bucket"] ∧
        before.countP Event.isClose = 0) ∧
    ((readBucket ctx c.ConfigFilePath).2 ≠ none →
      (GetConfigForReadBucket c p ctx readBucket).trace.countP Event.isClose = 0) := by
  rcases hget : readBucket ctx c.ConfigFilePath with ⟨readObject, _ | e⟩
  · have h : (GetConfigForReadBucket c p ctx readBucket).trace =
        (Event.logStart "get_config_for_bucket" :: Event.get ctx c.ConfigFilePath ::
          (GetConfigForReadBucket.body c p readObject (ExternalConfig.zero c.zeroBuild)).trace)
          ++ [Event.close, Event.logEnd "get_config_for_bucket"] := by
      simp [GetConfigForReadBucket, hget]
    have hb := body_countP_isClose c p readObject (ExternalConfig.zero c.zeroBuild)
    refine ⟨fun _ => ⟨?_, _, h, ?_⟩, fun hne => absurd rfl hne⟩
    · rw [h]
      simp [List.countP_cons, List.countP_append, Event.isClose, hb]
    · simp [List.countP_cons, Event.isClose, hb]
  · refine ⟨fun hn => by simp at hn, fun _ => ?_⟩
    unfold GetConfigForReadBucket
    by_cases hne : c.IsNotExist e = true
    · simp [hget, hne, List.countP_cons, List.countP_append, Event.isClose,
        newConfig_countP_isClose]
    · simp [hget, hne, List.countP_cons, Event.isClose]

/-- C7: when the strict decoder rejects the bytes with `e`, `GetConfigForData`
returns `(nil, e)`, and `GetConfigForReadBucket` (the bucket serving those
bytes) returns a nil Config and the error `multierr.Append(e, Close())`, whose
errors start with those of `e`; in both calls neither the hook nor a builder is
invoked. -/
theorem decode_failure_aborts (c : Collaborators B K L) (p : provider B) (data : Bytes) :
    (∀ target e,
      c.UnmarshalJSONOrYAMLStrict data (ExternalConfig.zero c.zeroBuild) = (target, some e) →
      (GetConfigForData c p data).config = none ∧
      (GetConfigForData c p data).err = some e ∧
      noHookNoBuilder (GetConfigForData c p data).trace) ∧
    (∀ ctx (readBucket : ReadBucket) readObject target e,
      readBucket ctx c.ConfigFilePath = (readObject, none) →
      readObject.ReadAll = (data, none) →
      c.UnmarshalYAMLStrict data (ExternalConfig.zero c.zeroBuild) = (target, some e) →
      (GetConfigForReadBucket c p ctx readBucket).config = none ∧
      (GetConfigForReadBucket c p ctx readBucket).err = Append (some e) readObject.Close ∧
      (∃ x, (GetConfigForReadBucket c p ctx readBucket).err = some x ∧
        e.Errors <+: x.Errors) ∧
      noHookNoBuilder (GetConfigForReadBucket c p ctx readBucket).trace) := by
  constructor
  · intro target e hd
    have h : GetConfigForData c p data =
        { config := none, err := some e
          trace := [Event.logStart "get_config_for_data",
            Event.unmarshalJSONOrYAMLStrict data, Event.logEnd "get_config_for_data"] } := by
      simp [GetConfigForData, hd]
    rw [h]
    refine ⟨rfl, rfl, ?_⟩
    intro ev hev
    simp only [List.mem_cons, List.mem_singleton, List.not_mem_nil, or_false] at hev
    rcases hev with h1 | h1 | h1 <;> subst h1 <;>
      simp [Event.isModifier, Event.isBuilder, Event.isBreakingBuilder, Event.isLintBuilder]
  · intro ctx readBucket readObject target e hget hread hd
    have h : GetConfigForReadBucket c p ctx readBucket =
        { config := none, err := Append (some e) readObject.Close
          trace := [Event.logStart "get_config_for_bucket", Event.get ctx c.ConfigFilePath,
            Event.readAll, Event.unmarshalYAMLStrict data, Event.close,
            Event.logEnd "get_config_for_bucket"] } := by
      simp [GetConfigForReadBucket, GetConfigForReadBucket.body, hget, hread, hd]
    rw [h]
    refine ⟨rfl, rfl, ?_, ?_⟩
    · rcases readObject.Close with _ | cl
      · exact ⟨e, rfl, List.prefix_refl _⟩
      · exact ⟨_, rfl, List.prefix_append _ _⟩
    · intro ev hev
      simp only [List.mem_cons, List.mem_singleton, List.not_mem_nil, or_false] at hev
      rcases hev with h1 | h1 | h1 | h1 | h1 | h1 <;> subst h1 <;>
        simp [Event.isModifier, Event.isBuilder, Event.isBreakingBuilder, Event.isLintBuilder]

/-- C8: when the bucket serves `data` at `ConfigFilePath` through a stream
whose `Close` succeeds, and `UnmarshalYAMLStrict` and
`UnmarshalJSONOrYAMLStrict` both decode `data` into the same `decoded`, then
`GetConfigForReadBucket` and `GetConfigForData` return the same Config and the
same error, those of `newConfig` on `decoded`, and make the same calls of the
hook and the builders. -/
theorem entry_points_agree (c : Collaborators B K L) (p : provider B) (ctx : Context)
    (readBucket : ReadBucket) (readObject : ReadObject) (data : Bytes)
    (decoded : ExternalConfig B)
    (hget : readBucket ctx c.ConfigFilePath = (readObject, none))
    (hread : readObject.ReadAll = (data, none))
    (hclose : readObject.Close = none)
    (hyaml : c.UnmarshalYAMLStrict data (ExternalConfig.zero c.zeroBuild) = (decoded, none))
    (hjson : c.UnmarshalJSONOrYAMLStrict data (ExternalConfig.zero c.zeroBuild) =
      (decoded, none)) :
    (GetConfigForReadBucket c p ctx readBucket).config = (GetConfigForData c p data).config ∧
    (GetConfigForReadBucket c p ctx readBucket).err = (GetConfigForData c p data).err ∧
    (GetConfigForData c p data).config = (newConfig c p decoded).config ∧
    (GetConfigForData c p data).err = (newConfig c p decoded).err ∧
    (GetConfigForReadBucket c p ctx readBucket).trace.filter
        (fun ev => ev.isModifier || ev.isBuilder) =
      (GetConfigForData c p data).trace.filter (fun ev => ev.isModifier || ev.isBuilder) := by
  have hb : GetConfigForReadBucket c p ctx readBucket =
      { config := (newConfig c p decoded).config
        err := (newConfig c p decoded).err
        trace := Event.logStart "get_config_for_bucket" :: Event.get ctx c.ConfigFilePath ::
          ((Event.readAll :: Event.unmarshalYAMLStrict data :: (newConfig c p decoded).trace)
            ++ [Event.close, Event.logEnd "get_config_for_bucket"]) } := by
    have ha : ∀ o : Option GoError, Append o none = o := by intro o; cases o <;> rfl
    simp [GetConfigForReadBucket, GetConfigForReadBucket.body, hget, hread, hyaml, hclose, ha]
  have hd : GetConfigForData c p data =
      { config := (newConfig c p decoded).config
        err := (newConfig c p decoded).err
        trace := Event.logStart "get_config_for_data" ::
          Event.unmarshalJSONOrYAMLStrict data ::
          ((newConfig c p decoded).trace ++ [Event.logEnd "get_config_for_data"]) } := by
    simp [GetConfigForData, hjson]
  rw [hb, hd]
  refine ⟨rfl, rfl, rfl, rfl, ?_⟩
  simp [List.filter_cons, List.filter_append, Event.isModifier, Event.isBuilder,
    Event.isBreakingBuilder, Event.isLintBuilder]

/-- C9: when `Get` at `ConfigFilePath` fails with an error `e` for which
`storage.IsNotExist` is false, `GetConfigForReadBucket` returns `(nil, e)`, `e`
as it was returned by `Get`, and makes no call besides the `Get`: no decoder,
no hook, no builder. -/
theorem GetConfigForReadBucket_get_error (c : Collaborators B K L) (p : provider B)
    (ctx : Context) (readBucket : ReadBucket) (readObject : ReadObject) (e : GoError)
    (hget : readBucket ctx c.ConfigFilePath = (readObject, some e))
    (hne : c.IsNotExist e = false) :
    (GetConfigForReadBucket c p ctx readBucket).config = none ∧
    (GetConfigForReadBucket c p ctx readBucket).err = some e ∧
    (GetConfigForReadBucket c p ctx readBucket).trace =
      [Event.logStart "get_config_for_bucket", Event.get ctx c.ConfigFilePath,
        Event.logEnd "get_config_for_bucket"] ∧
    (∀ ev ∈ (GetConfigForReadBucket c p ctx readBucket).trace,
      ev.isDecode = false ∧ ev.isModifier = false ∧ ev.isBuilder = false) := by
  have h : GetConfigForReadBucket c p ctx readBucket =
      { config := none, err := some e
        trace := [Event.logStart "get_config_for_bucket", Event.get ctx c.ConfigFilePath,
          Event.logEnd "get_config_for_bucket"] } := by
    simp [GetConfigForReadBucket, hget, hne]
  rw [h]
  refine ⟨rfl, rfl, rfl, ?_⟩
  intro ev hev
  simp only [List.mem_cons, List.mem_singleton, List.not_mem_nil, or_false] at hev
  rcases hev with h1 | h1 | h1 <;> subst h1 <;>
    simp [Event.isDecode, Event.isModifier, Event.isBuilder, Event.isBreakingBuilder,
      Event.isLintBuilder]

end EntryPoints

/-! ## Config and error together -/

section ConfigAndError

variable {B K L : Type}

theorem newConfig_build_config_none_iff (c : Collaborators B K L) (x : ExternalConfig B) :
    (newConfig.build c x).config = none ↔ (newConfig.build c x).err ≠ none := by
  unfold newConfig.build
  rcases hb : c.breakingNewConfig (breakingBuilderOf x) with ⟨bk, _ | e⟩
  · rcases hl : c.lintNewConfig (lintBuilderOf x) with ⟨lt, _ | e⟩ <;> simp [hb, hl]
  · simp [hb]

theorem newConfig_config_none_iff (c : Collaborators B K L) (p : provider B)
    (x : ExternalConfig B) :
    (newConfig c p x).config = none ↔ (newConfig c p x).err ≠ none := by
  unfold newConfig
  rcases hp : p.externalConfigModifier with _ | modifier
  · simpa using newConfig_build_config_none_iff c x
  · rcases hm : modifier x with ⟨post, _ | e⟩
    · simpa [hm] using newConfig_build_config_none_iff c post
    · simp [hm]

theorem body_config_none_iff (c : Collaborators B K L) (p : provider B) (ro : ReadObject)
    (x : ExternalConfig B) :
    (GetConfigForReadBucket.body c p ro x).config = none ↔
      (GetConfigForReadBucket.body c p ro x).err ≠ none := by
  unfold GetConfigForReadBucket.body
  rcases ro.ReadAll with ⟨data, _ | e⟩
  · rcases hd : c.UnmarshalYAMLStrict data x with ⟨decoded, _ | e⟩
    · simpa [hd] using newConfig_config_none_iff c p decoded
    · simp [hd]
  · simp

/-- The buffer entry point never returns a Config next to an error. -/
theorem GetConfigForData_error_config_nil (c : Collaborators B K L) (p : provider B)
    (data : Bytes) (h : (GetConfigForData c p data).err ≠ none) :
    (GetConfigForData c p data).config = none := by
  unfold GetConfigForData at h ⊢
  rcases hd : c.UnmarshalJSONOrYAMLStrict data (ExternalConfig.zero c.zeroBuild) with
    ⟨decoded, _ | e⟩
  · simp only [hd] at h ⊢
    exact (newConfig_config_none_iff c p decoded).2 h
  · simp [hd]

/-- The bucket entry point returns a Config next to an error in one situation
only: `Get` succeeded, the main path succeeded, and `Close` failed. -/
theorem GetConfigForReadBucket_config_and_error_iff (c : Collaborators B K L)
    (p : provider B) (ctx : Context) (readBucket : ReadBucket) :
    ((GetConfigForReadBucket c p ctx readBucket).config ≠ none ∧
      (GetConfigForReadBucket c p ctx readBucket).err ≠ none) ↔
    ((readBucket ctx c.ConfigFilePath).2 = none ∧
      (GetConfigForReadBucket.body c p (readBucket ctx c.ConfigFilePath).1
        (ExternalConfig.zero c.zeroBuild)).err = none ∧
      (readBucket ctx c.ConfigFilePath).1.Close ≠ none) := by
  unfold GetConfigForReadBucket
  rcases hget : readBucket ctx c.ConfigFilePath with ⟨ro, _ | e⟩
  · have hb := body_config_none_iff c p ro (ExternalConfig.zero c.zeroBuild)
    simp only [ne_eq]
    rcases hm : (GetConfigForReadBucket.body c p ro (ExternalConfig.zero c.zeroBuild)).err
      with _ | me
    · rw [hm] at hb
      rcases hc : ro.Close with _ | cl
      · simp [Append]
      · simp [Append, hb]
    · rw [hm] at hb
      have : (GetConfigForReadBucket.body c p ro (ExternalConfig.zero c.zeroBuild)).config
          = none := hb.2 (by simp)
      simp [this]
  · by_cases hne : c.IsNotExist e = true
    · have hn := newConfig_config_none_iff c p (ExternalConfig.zero c.zeroBuild)
      simp only [hne, if_true, ne_eq]
      constructor
      · rintro ⟨h1, h2⟩
        exact absurd (hn.2 h2) h1
      · rintro ⟨h1, _⟩
        simp at h1
    · simp [hne]

/-- C1, evaluated: on a bucket whose stream serves decodable bytes and whose
`Close` fails, `GetConfigForReadBucket` returns a non-nil Config together with
the non-nil `Close` error. -/
theorem GetConfigForReadBucket_close_failure_keeps_config :
    (GetConfigForReadBucket Sample.collaborators Sample.plain 0
      (Sample.bucketWith (Sample.stream [1] (some (Sample.boom "close"))))).config =
      some
        { Build := 7
          Breaking :=
            { Use := ["X"], Except := [], IgnoreRootPaths := []
              IgnoreIDOrCategoryToRootPaths := [] }
          Lint :=
            { Use := ["Y"], Except := [], IgnoreRootPaths := []
              IgnoreIDOrCategoryToRootPaths := [], EnumZeroValueSuffix := ""
              RPCAllowSameRequestResponse := false
              RPCAllowGoogleProtobufEmptyRequests := false
              RPCAllowGoogleProtobufEmptyResponses := false
              ServiceSuffix := "Svc" } } ∧
    (GetConfigForReadBucket Sample.collaborators Sample.plain 0
      (Sample.bucketWith (Sample.stream [1] (some (Sample.boom "close"))))).err =
      some (Sample.boom "close") := by
  decide

end ConfigAndError

/-! ## The theorems at concrete inputs -/

section Instances

open Sample

/-- C2 at a bucket without a configuration file: the `Get` error satisfies
`IsNotExist`, and the call returns the default configuration and no error. -/
theorem GetConfigForReadBucket_not_found_witness :
    collaborators.IsNotExist (boom "not exist") = true ∧
    (GetConfigForReadBucket collaborators plain 0 (bucketFailing (boom "not exist"))).err =
      (newConfig collaborators plain (ExternalConfig.zero 0)).err ∧
    (GetConfigForReadBucket collaborators plain 0 (bucketFailing (boom "not exist"))).err =
      none :=
  ⟨by decide,
    (GetConfigForReadBucket_not_found collaborators plain 0 (bucketFailing (boom "not exist"))
      (stream [] none) (boom "not exist") rfl (by decide)).2.1,
    by decide⟩

/-- C3 at two buckets whose `Close` fails: after a successful main path the
`Close` error is returned; after a decode failure both errors are listed. -/
theorem GetConfigForReadBucket_close_error_witness :
    (GetConfigForReadBucket collaborators plain 0
      (bucketWith (stream [1] (some (boom "close"))))).err = some (boom "close") ∧
    (∃ x, (GetConfigForReadBucket collaborators plain 0
      (bucketWith (stream [2] (some (boom "close"))))).err = some x ∧
      x.Errors = (boom "unknown field").Errors ++ (boom "close").Errors) :=
  ⟨(GetConfigForReadBucket_close_error collaborators plain 0
      (bucketWith (stream [1] (some (boom "close")))) (stream [1] (some (boom "close")))
      rfl).2.1 (boom "close") (by decide) rfl,
    (GetConfigForReadBucket_close_error collaborators plain 0
      (bucketWith (stream [2] (some (boom "close")))) (stream [2] (some (boom "close")))
      rfl).2.2.1 (boom "unknown field") (boom "close") (by decide) rfl⟩

/-- C4 at a bucket serving undecodable bytes and at a bucket whose `Get`
fails. -/
theorem GetConfigForReadBucket_close_count_witness :
    (GetConfigForReadBucket collaborators failingHook 0
      (bucketWith (stream [2] none))).trace.countP Event.isClose = 1 ∧
    (GetConfigForReadBucket collaborators failingHook 0
      (bucketFailing (boom "disk"))).trace.countP Event.isClose = 0 :=
  ⟨((GetConfigForReadBucket_close_count collaborators failingHook 0
      (bucketWith (stream [2] none))).1 rfl).1,
    (GetConfigForReadBucket_close_count collaborators failingHook 0
      (bucketFailing (boom "disk"))).2 (by decide)⟩

/-- C5 at a provider whose hook fails. -/
theorem newConfig_hook_error_witness :
    (newConfig collaborators failingHook (ExternalConfig.zero 0)).config = none ∧
    (newConfig collaborators failingHook (ExternalConfig.zero 0)).err = some (boom "hook") ∧
    (newConfig collaborators failingHook (ExternalConfig.zero 0)).trace =
      [Event.modifier (ExternalConfig.zero 0)] ∧
    (∀ ev ∈ (newConfig collaborators failingHook (ExternalConfig.zero 0)).trace,
      ev.isBuilder = false) :=
  newConfig_hook_error collaborators failingHook (ExternalConfig.zero 0)
    (ExternalConfig.zero 0) (fun cfg => (cfg, some (boom "hook"))) (boom "hook") rfl rfl

/-- C6 at a provider whose hook rewrites the selections: the hook is called
once. -/
theorem newConfig_builders_see_hook_result_witness :
    (newConfig collaborators rewritingHook (ExternalConfig.zero 0)).trace.countP
      Event.isModifier = 1 ∧
    (newConfig collaborators rewritingHook (ExternalConfig.zero 0)).trace =
      [Event.modifier (ExternalConfig.zero 0),
        Event.breakingNewConfig
          { Use := ["B1"], Except := ["B2"], IgnoreRootPaths := []
            IgnoreIDOrCategoryToRootPaths := [] },
        Event.lintNewConfig
          { Use := ["L1"], Except := [], IgnoreRootPaths := []
            IgnoreIDOrCategoryToRootPaths := [], EnumZeroValueSuffix := "_UNSPECIFIED"
            RPCAllowSameRequestResponse := false
            RPCAllowGoogleProtobufEmptyRequests := false
            RPCAllowGoogleProtobufEmptyResponses := false
            ServiceSuffix := "" }] :=
  ⟨(newConfig_builders_see_hook_result collaborators rewritingHook (ExternalConfig.zero 0)
      { Build := 9
        Breaking := { (ExternalConfig.zero 0).Breaking with Use := ["B1"], Except := ["B2"] }
        Lint :=
          { (ExternalConfig.zero 0).Lint with
            Use := ["L1"], EnumZeroValueSuffix := "_UNSPECIFIED" } }
      _ rfl rfl).2,
    by decide⟩

/-- C7 at the undecodable bytes `[2]`, on both entry points. -/
theorem decode_failure_aborts_witness :
    (GetConfigForData collaborators plain [2]).config = none ∧
    (GetConfigForData collaborators plain [2]).err = some (boom "unknown field") ∧
    (GetConfigForReadBucket collaborators plain 0 (bucketWith (stream [2] none))).config =
      none ∧
    (GetConfigForReadBucket collaborators plain 0 (bucketWith (stream [2] none))).err =
      Append (some (boom "unknown field")) none :=
  ⟨((decode_failure_aborts collaborators plain [2]).1 (ExternalConfig.zero 0)
      (boom "unknown field") rfl).1,
    ((decode_failure_aborts collaborators plain [2]).1 (ExternalConfig.zero 0)
      (boom "unknown field") rfl).2.1,
    ((decode_failure_aborts collaborators plain [2]).2 0 (bucketWith (stream [2] none))
      (stream [2] none) (ExternalConfig.zero 0) (boom "unknown field") rfl rfl rfl).1,
    ((decode_failure_aborts collaborators plain [2]).2 0 (bucketWith (stream [2] none))
      (stream [2] none) (ExternalConfig.zero 0) (boom "unknown field") rfl rfl rfl).2.1⟩

/-- C8 at the bytes `[1]`, served by a bucket and passed as a buffer. -/
theorem entry_points_agree_witness :
    (GetConfigForReadBucket collaborators rewritingHook 0
      (bucketWith (stream [1] none))).config =
      (GetConfigForData collaborators rewritingHook [1]).config ∧
    (GetConfigForReadBucket collaborators rewritingHook 0
      (bucketWith (stream [1] none))).err =
      (GetConfigForData collaborators rewritingHook [1]).err ∧
    (GetConfigForData collaborators rewritingHook [1]).err = none :=
  ⟨(entry_points_agree collaborators rewritingHook 0 (bucketWith (stream [1] none))
      (stream [1] none) [1] (decode [1] (ExternalConfig.zero 0)).1 rfl rfl rfl
      (by decide) (by decide)).1,
    (entry_points_agree collaborators rewritingHook 0 (bucketWith (stream [1] none))
      (stream [1] none) [1] (decode [1] (ExternalConfig.zero 0)).1 rfl rfl rfl
      (by decide) (by decide)).2.1,
    by decide⟩

/-- C9 at a bucket whose `Get` fails with an error that is not a not-found
error. -/
theorem GetConfigForReadBucket_get_error_witness :
    collaborators.IsNotExist (boom "disk") = false ∧
    (GetConfigForReadBucket collaborators plain 0 (bucketFailing (boom "disk"))).config =
      none ∧
    (GetConfigForReadBucket collaborators plain 0 (bucketFailing (boom "disk"))).err =
      some (boom "disk") :=
  ⟨by decide,
    (GetConfigForReadBucket_get_error collaborators plain 0 (bucketFailing (boom "disk"))
      (stream [] none) (boom "disk") rfl (by decide)).1,
    (GetConfigForReadBucket_get_error collaborators plain 0 (bucketFailing (boom "disk"))
      (stream [] none) (boom "disk") rfl (by decide)).2.1⟩

/-- C10 at a provider whose hook rewrites all three sections: the Config has
the Build section the hook left, and both builders' values. -/
theorem newConfig_result_witness :
    (newConfig collaborators rewritingHook (ExternalConfig.zero 0)).config =
      some
        { Build := 9
          Breaking :=
            { Use := ["B1"], Except := ["B2"], IgnoreRootPaths := []
              IgnoreIDOrCategoryToRootPaths := [] }
          Lint :=
            { Use := ["L1"], Except := [], IgnoreRootPaths := []
              IgnoreIDOrCategoryToRootPaths := [], EnumZeroValueSuffix := "_UNSPECIFIED"
              RPCAllowSameRequestResponse := false
              RPCAllowGoogleProtobufEmptyRequests := false
              RPCAllowGoogleProtobufEmptyResponses := false
              ServiceSuffix := "" } } :=
  (newConfig_result collaborators rewritingHook (ExternalConfig.zero 0)).2.1 (by decide)

end Instances

end Bufconfig
